import Mathlib

/-
  Verification of the FDA label compliance core of the LATAM--FDA-Auditor
  repository (src/app.py, src/fda_validator.py).

  The Python code is shallowly embedded: Python floats are modelled as exact
  rationals (ℚ), Python `round` (banker's rounding) as `pyBankerRound`,
  Python strings as Lean `String` (a list of unicode code points), dict-shaped
  extraction records as structures of optional fields, and Python exceptions
  (the uncaught `ValueError` that `float(...)` can raise) as `Except PyExn`.

  Rational arithmetic is written with the kernel-computable wrappers
  `qAdd`/`qSub`/`qMul`/`qDiv`/... built on `mkRat` (the library's `+`/`*`/...
  on `ℚ` are irreducible and would block evaluation of closed instances);
  the bridge theorems `qAdd_eq`/... prove them equal to the standard
  operations, so the definitions still denote ordinary rational arithmetic.

  Notes on fidelity of the primitives:
  * `float(...)` string parsing accepts optional surrounding whitespace, an
    optional sign, a decimal mantissa and an optional exponent; CPython's
    additional forms ("inf", "nan", underscores in numerals) are not modelled —
    no value in the audited code paths uses them.
  * `str(...)` of a float is modelled as the exact decimal representation for
    rationals whose denominator divides a power of ten (every value the code
    produces by rounding to 1 or 2 decimal places is of this form).
  * `str.lower`/`str.upper`/`str.title` use ASCII case mapping (the regression
    keywords and category names of the code are ASCII).
-/

/-! ## Kernel-computable rational arithmetic -/

def qOfInt (n : ℤ) : ℚ := mkRat n 1

def qOfNat (n : ℕ) : ℚ := mkRat n 1

def qAdd (a b : ℚ) : ℚ := mkRat (a.num * b.den + b.num * a.den) (a.den * b.den)

def qNeg (a : ℚ) : ℚ := mkRat (-a.num) a.den

def qSub (a b : ℚ) : ℚ := qAdd a (qNeg b)

def qMul (a b : ℚ) : ℚ := mkRat (a.num * b.num) (a.den * b.den)

def qInv (a : ℚ) : ℚ :=
  if a.num < 0 then mkRat (-(a.den : ℤ)) a.num.natAbs
  else mkRat a.den a.num.natAbs

def qDiv (a b : ℚ) : ℚ := qMul a (qInv b)

def qPow10 (k : ℕ) : ℚ := mkRat ((10 ^ k : ℕ) : ℤ) 1

/-! ## Python primitives -/

/-- Python `round(x)`: round half to even (banker's rounding), returning an int. -/
def pyBankerRound (x : ℚ) : ℤ :=
  let f := ⌊x⌋
  let r := qSub x (qOfInt f)
  if r < mkRat 1 2 then f
  else if mkRat 1 2 < r then f + 1
  else if f % 2 = 0 then f else f + 1

/-- Python `round(x, k)` for `k` decimal digits (idealized decimal model). -/
def pyRoundTo (x : ℚ) (k : ℕ) : ℚ :=
  qDiv (qOfInt (pyBankerRound (qMul x (qPow10 k)))) (qPow10 k)

/-- Characters matched by Python's `\s` and stripped by `str.strip()`. -/
def isPySpace (c : Char) : Bool :=
  c = ' ' || c = '\t' || c = '\n' || c = '\x0d' || c = '\x0c' || c = '\x0b'

def pyLowerChar (c : Char) : Char := c.toLower

def pyLower (s : String) : String := ⟨s.data.map pyLowerChar⟩

def pyUpper (s : String) : String := ⟨s.data.map Char.toUpper⟩

/-- Python `str.strip()`. -/
def pyStrip (s : String) : String :=
  ⟨((s.data.dropWhile isPySpace).reverse.dropWhile isPySpace).reverse⟩

/-- Python `str.title()`: a letter is uppercased when the previous character is
not a letter, lowercased otherwise. -/
def pyTitleAux : Bool → List Char → List Char
  | _, [] => []
  | prevAlpha, c :: t =>
    (if c.isAlpha then (if prevAlpha then c.toLower else c.toUpper) else c)
      :: pyTitleAux c.isAlpha t

def pyTitle (s : String) : String := ⟨pyTitleAux false s.data⟩

/-- Does the first list start with the second? -/
def chListStarts : List Char → List Char → Bool
  | _, [] => true
  | [], _ :: _ => false
  | a :: as, b :: bs => a = b && chListStarts as bs

/-- Does the first list contain the second as a contiguous sublist? -/
def chListHas : List Char → List Char → Bool
  | [], needle => chListStarts [] needle
  | a :: t, needle => chListStarts (a :: t) needle || chListHas t needle

/-- Python substring test `needle in hay`. -/
def pyIn (needle hay : String) : Bool := chListHas hay.data needle.data

def digitVal (c : Char) : ℕ := c.toNat - 48

def parseNatDigits (ds : List Char) : ℕ :=
  ds.foldl (fun a c => a * 10 + digitVal c) 0

/-- Mantissa value of integer digits `ip` and fraction digits `fp`. -/
def mantissaVal (ip fp : List Char) : ℚ :=
  qAdd (qOfNat (parseNatDigits ip)) (mkRat (parseNatDigits fp) (10 ^ fp.length))

/-- Optional exponent suffix `e±ddd` of a Python float literal; returns the
signed exponent provided the whole rest of the string is consumed. -/
def pyFloatExp : List Char → Option ℤ
  | [] => some 0
  | c :: t =>
    if c = 'e' ∨ c = 'E' then
      let (sgn, t2) : ℤ × List Char :=
        match t with
        | '+' :: u => (1, u)
        | '-' :: u => (-1, u)
        | u => (1, u)
      let (ds, t3) := t2.span Char.isDigit
      if ds = [] ∨ t3 ≠ [] then none else some (sgn * parseNatDigits ds)
    else none

/-- Scale a mantissa by a signed power of ten. -/
def qScale10 (m : ℚ) (e : ℤ) : ℚ :=
  if 0 ≤ e then qMul m (qOfNat (10 ^ e.toNat))
  else qDiv m (qOfNat (10 ^ (-e).toNat))

/-- Python `float(s)` on a string: `none` models a raised `ValueError`. -/
def pyFloatOpt (s : String) : Option ℚ :=
  let cs := (s.data.dropWhile isPySpace).reverse.dropWhile isPySpace |>.reverse
  let (neg, cs2) : Bool × List Char :=
    match cs with
    | '+' :: t => (false, t)
    | '-' :: t => (true, t)
    | t => (false, t)
  let (ip, r1) := cs2.span Char.isDigit
  match r1 with
  | '.' :: r2 =>
    let (fp, r3) := r2.span Char.isDigit
    if ip = [] ∧ fp = [] then none
    else (pyFloatExp r3).map fun e =>
      let v := qScale10 (mantissaVal ip fp) e
      if neg then qNeg v else v
  | r2 =>
    if ip = [] then none
    else (pyFloatExp r2).map fun e =>
      let v := qScale10 (mantissaVal ip []) e
      if neg then qNeg v else v

/-- Decimal digits of `n`, `k` places, most significant first (helper for
float printing). -/
def natDigitsPadded (n : ℕ) (k : ℕ) : List Char :=
  (List.range k).reverse.map fun i => Char.ofNat (48 + n / 10 ^ i % 10)

/-- Smallest number of decimal places representing `q` exactly (searched up to
40, enough for every value the embedded code produces). -/
def decExp (q : ℚ) : Option ℕ :=
  (List.range 40).find? fun k => (qMul q (qPow10 k)).den = 1

/-- Python `str(x)` for a float `x` whose value is an exactly representable
decimal: minimal digits, always at least one fractional digit (`str(12.0) =
"12.0"`). Rationals outside this form do not occur in the embedded code. -/
def pyStrOfFloat (q : ℚ) : String :=
  match decExp q with
  | none => toString q
  | some k =>
    let n := (qMul q (qPow10 k)).num.natAbs
    let ipart := n / 10 ^ k
    let fpart := n % 10 ^ k
    let fdigits := (natDigitsPadded fpart k).reverse.dropWhile (· = '0') |>.reverse
    let fstr : List Char := if fdigits = [] then ['0'] else fdigits
    (if q < 0 then "-" else "") ++ toString ipart ++ "." ++ ⟨fstr⟩

/-- Python `f"{x:.1f}"`: fixed one decimal place. -/
def fmt1f (q : ℚ) : String :=
  let n := pyBankerRound (qMul q (qOfNat 10))
  let m := n.natAbs
  (if n < 0 then "-" else "") ++ toString (m / 10) ++ "." ++ toString (m % 10)

/-- A loosely typed Python value as found in the extraction field maps. -/
inductive PyVal
  | none
  | str (s : String)
  | num (q : ℚ)
  deriving DecidableEq, Repr

/-- Python `float(value)` over a loose value; `Option.none` models a raised
`ValueError`/`TypeError`. -/
def pyFloatOf : PyVal → Option ℚ
  | .none => Option.none
  | .str s => pyFloatOpt s
  | .num q => some q

/-- Truthiness of an optional string (`None` and `''` are falsy). -/
def truthyS : Option String → Bool
  | Option.none => false
  | some s => !(s = "")

/-- Python `a or b` for an optional string `a` with default `b`. -/
def pyOr (a : Option String) (b : String) : String :=
  match a with
  | some s => if s = "" then b else s
  | Option.none => b

/-- Python `a or b` for two strings. -/
def pyOrS (a b : String) : String := if a = "" then b else a

/-! ## FDA rounding rules

`apply_fda_rounding_rules` embeds src/app.py lines 645-734;
`round_by_fda_rules` and `ROUNDING_RULES` embed src/fda_validator.py
lines 28-98 (the same class literal appears in src/app.py). -/

/-- The repeated fat-type branch body of `apply_fda_rounding_rules`
(`total_fat` / `saturated_fat` / `trans_fat` have three textually identical
branches in the source). Precondition of the source path: `0.5 ≤ val`. -/
def fatHalfStep (val : ℚ) : String :=
  if val < 5 then
    let rounded := qDiv (qOfInt (pyBankerRound (qMul val (qOfNat 2)))) (qOfNat 2)
    if rounded = (⌊rounded⌋ : ℚ) then toString ⌊rounded⌋
    else fmt1f rounded
  else toString (pyBankerRound val)

/-- src/app.py `apply_fda_rounding_rules(value, nutrient_type)`. -/
def apply_fda_rounding_rules (value : PyVal) (nutrient_type : String) : String :=
  match pyFloatOf value with
  | Option.none => "0"
  | some val =>
    if nutrient_type = "calories" then
      if val < 5 then "0"
      else if val ≤ 50 then toString (pyBankerRound (qDiv val (qOfNat 5)) * 5)
      else toString (pyBankerRound (qDiv val (qOfNat 10)) * 10)
    else if nutrient_type = "total_fat" then
      if val < mkRat 1 2 then "0" else fatHalfStep val
    else if nutrient_type = "saturated_fat" then
      if val < mkRat 1 2 then "0" else fatHalfStep val
    else if nutrient_type = "trans_fat" then
      -- source comment: CRITICAL: FDA requires 0g display if <0.5g
      if val < mkRat 1 2 then "0" else fatHalfStep val
    else if nutrient_type = "cholesterol" then
      if val < 2 then "0"
      else if val ≤ 5 then "5"
      else toString (pyBankerRound (qDiv val (qOfNat 5)) * 5)
    else if nutrient_type = "sodium" then
      if val < 5 then "0"
      else if val ≤ 140 then toString (pyBankerRound (qDiv val (qOfNat 5)) * 5)
      else toString (pyBankerRound (qDiv val (qOfNat 10)) * 10)
    else if nutrient_type = "total_carb" ∨ nutrient_type = "fiber" ∨
        nutrient_type = "total_sugars" ∨ nutrient_type = "added_sugars" then
      if val < mkRat 1 2 then "0" else toString (pyBankerRound val)
    else if nutrient_type = "protein" then
      if val < mkRat 1 2 then "0" else toString (pyBankerRound val)
    else if nutrient_type = "vitamin_d_mcg" ∨ nutrient_type = "calcium_mg" ∨
        nutrient_type = "iron_mg" ∨ nutrient_type = "potassium_mg" then
      if val < mkRat 1 2 then "0" else toString (pyBankerRound val)
    else toString (pyBankerRound val)

/-- One interval row of `FDALabelValidator.ROUNDING_RULES`:
lower bound, upper bound (`Option.none` = `float('inf')`), increment. -/
structure RoundRule where
  lo : ℚ
  hi : Option ℚ
  inc : ℚ
  deriving DecidableEq, Repr

/-- src/fda_validator.py `FDALabelValidator.ROUNDING_RULES` (note: no
`trans_fat` key). Dict iteration order is insertion order. -/
def ROUNDING_RULES : List (String × List RoundRule) :=
  [ ("calories",
      [⟨0, some 5, 0⟩, ⟨5, some 50, 5⟩, ⟨50, Option.none, 10⟩]),
    ("total_fat",
      [⟨0, some (mkRat 1 2), 0⟩, ⟨mkRat 1 2, some 5, mkRat 1 2⟩, ⟨5, Option.none, 1⟩]),
    ("saturated_fat",
      [⟨0, some (mkRat 1 2), 0⟩, ⟨mkRat 1 2, some 5, mkRat 1 2⟩, ⟨5, Option.none, 1⟩]),
    ("cholesterol",
      [⟨0, some 2, 0⟩, ⟨2, some 5, 5⟩, ⟨5, Option.none, 5⟩]),
    ("sodium",
      [⟨0, some 5, 0⟩, ⟨5, some 140, 5⟩, ⟨140, Option.none, 10⟩]),
    ("carbs",
      [⟨0, some (mkRat 1 2), 0⟩, ⟨mkRat 1 2, Option.none, 1⟩]),
    ("protein",
      [⟨0, some (mkRat 1 2), 0⟩, ⟨mkRat 1 2, Option.none, 1⟩]) ]

/-- Membership test `min_val <= value < max_val` of a rule row. -/
def RoundRule.contains (r : RoundRule) (value : ℚ) : Bool :=
  r.lo ≤ value && (match r.hi with | Option.none => true | some h => value < h)

/-- Iterate the rule rows in order, as the Python `for` loop does. -/
def applyRoundRows (value : ℚ) : List RoundRule → Option ℚ
  | [] => Option.none
  | r :: rs =>
    if r.contains value then
      some (if r.inc = 0 then 0
            else qMul (qOfInt (pyBankerRound (qDiv value r.inc))) r.inc)
    else applyRoundRows value rs

/-- src/fda_validator.py `FDALabelValidator.round_by_fda_rules(value,
nutrient_type)`. A nutrient type absent from the table — `trans_fat` among
them — falls through to `round(value, 1)`. -/
def round_by_fda_rules (value : ℚ) (nutrient_type : String) : ℚ :=
  match (ROUNDING_RULES.find? fun p => p.1 = nutrient_type) with
  | Option.none => pyRoundTo value 1
  | some (_, rules) =>
    match applyRoundRows value rules with
    | some r => r
    | Option.none => pyRoundTo value 1

/-! ## Serving size conversion

Embeds `FDALabelValidator.convert_metric_to_us_serving`
(src/fda_validator.py lines 143-207; the identical method appears at
src/app.py lines 1056-1098). -/

inductive MUnit
  | g
  | ml
  deriving DecidableEq, Repr

/-- The curated lookup dict of `convert_metric_to_us_serving`, tried by exact
string match on the stripped, lowercased input. -/
def servingConversions : List (String × String) :=
  [ ("30g", "2 tbsp (30g)"), ("28g", "1 oz (28g)"), ("15g", "1 tbsp (15g)"),
    ("50g", "1/4 cup (50g)"), ("100g", "3.5 oz (100g)"), ("150g", "5.3 oz (150g)"),
    ("200g", "7 oz (200g)"), ("227g", "8 oz (227g)"),
    ("240ml", "1 cup (240mL)"), ("250ml", "1 cup (250mL)"), ("120ml", "1/2 cup (120mL)"),
    ("180ml", "3/4 cup (180mL)"), ("15ml", "1 tbsp (15mL)"), ("5ml", "1 tsp (5mL)"),
    ("355ml", "12 fl oz (355mL)"), ("500ml", "2 cups (500mL)") ]

/-- The unit alternation `(g|ml)` of the serving regex: `g` is tried first;
`re.match` only needs a prefix, trailing characters are ignored. -/
def matchServingUnit : List Char → Option MUnit
  | 'g' :: _ => some MUnit.g
  | 'm' :: 'l' :: _ => some MUnit.ml
  | _ => Option.none

/-- `re.match(r'(\d+\.?\d*)\s*(g|ml)', m)`: greedy digits, an optional dot
with greedy fraction digits, then whitespace and the unit. (The pattern is
deterministic: backtracking over `\.?`/`\d*` can never turn a failed unit
match into a success, since shorter matches leave a digit or dot where
`\s*(g|ml)` must start.) Returns `float(group(1))` and the unit. -/
def parseAmountUnit (m : String) : Option (ℚ × MUnit) :=
  let (ip, r1) := m.data.span Char.isDigit
  if ip = [] then Option.none
  else
    let (fp, r2) : List Char × List Char :=
      match r1 with
      | '.' :: t => t.span Char.isDigit
      | t => ([], t)
    let hasDot : Bool := match r1 with | '.' :: _ => true | _ => false
    let amount := if hasDot then mantissaVal ip fp else mantissaVal ip []
    (matchServingUnit (r2.dropWhile isPySpace)).map fun u => (amount, u)

/-- The bucketing arm of `convert_metric_to_us_serving`, applied to the
regex-parse result (`m` is the normalized input, used by the fallback).
`int(amount)` truncates toward zero; the regex amount is nonnegative, so it
equals the floor. -/
def servingFromParsed (m : String) : Option (ℚ × MUnit) → String
  | some (amount, MUnit.g) =>
    if amount ≤ 15 then "1 tbsp (" ++ toString ⌊amount⌋ ++ "g)"
    else if amount ≤ 30 then "2 tbsp (" ++ toString ⌊amount⌋ ++ "g)"
    else if amount ≤ 100 then "1/4 cup (" ++ toString ⌊amount⌋ ++ "g)"
    else
      pyStrOfFloat (pyRoundTo (qDiv amount (mkRat 2835 100)) 1) ++ " oz (" ++
        toString ⌊amount⌋ ++ "g)"
  | some (amount, MUnit.ml) =>
    if amount ≤ 15 then "1 tbsp (" ++ toString ⌊amount⌋ ++ "mL)"
    else if amount ≤ 120 then
      pyStrOfFloat (pyRoundTo (qDiv amount (qOfNat 240)) 2) ++ " cup (" ++
        toString ⌊amount⌋ ++ "mL)"
    else
      pyStrOfFloat (pyRoundTo (qDiv amount (mkRat 2957 100)) 1) ++ " fl oz (" ++
        toString ⌊amount⌋ ++ "mL)"
  | Option.none => "1 serving (" ++ m ++ ")"

/-- src/fda_validator.py `convert_metric_to_us_serving(metric_str)`. -/
def convert_metric_to_us_serving (metric_str : String) : String :=
  let m := pyLower (pyStrip metric_str)
  match servingConversions.find? (fun p => p.1 = m) with
  | some p => p.2
  | Option.none => servingFromParsed m (parseAmountUnit m)

/-- The metric token kept of a parse result: the decimal representation of
the truncated magnitude when the parse succeeds, the whole normalized text
otherwise. -/
def servingTokenOf (m : String) : Option (ℚ × MUnit) → String
  | some (amount, _) => toString ⌊amount⌋
  | Option.none => m

/-- The metric token the converter actually keeps of its input (parsed and
curated routes: the truncated magnitude; fallback route: the whole text).
Used to state the amended metric-preservation invariant. -/
def servingCoreToken (metric_str : String) : String :=
  let m := pyLower (pyStrip metric_str)
  servingTokenOf m (parseAmountUnit m)

/-! ## Allergen detection

Embeds `AllergenDetector` (src/app.py lines 26-56). -/

/-- Python `\w` (ASCII range, as all allergen keywords are ASCII). -/
def isWordChar (c : Char) : Bool := c.isAlphanum || c = '_'

/-- Whole-word occurrence of `kw` starting at the head of `l`: the keyword
must be a prefix and the following character (if any) must not be a word
character. (All keywords consist of word characters.) -/
def wordAt (l kw : List Char) : Bool :=
  chListStarts l kw &&
    (match l.drop kw.length with
     | [] => true
     | c :: _ => !isWordChar c)

/-- Scan every position of the text for a whole-word match; `prevW` records
whether the previous character is a word character (a `\b` boundary requires
it not to be). -/
def wordScan (kw : List Char) : Bool → List Char → Bool
  | prevW, [] => !prevW && wordAt [] kw
  | prevW, c :: t => (!prevW && wordAt (c :: t) kw) || wordScan kw (isWordChar c) t

/-- `re.search(r'\b' + re.escape(keyword) + r'\b', text)` as a Boolean. -/
def reWordSearch (kw text : String) : Bool := wordScan kw.data false text.data

/-- src/app.py `AllergenDetector.MAJOR_ALLERGENS` (dict insertion order). -/
def MAJOR_ALLERGENS : List (String × List String) :=
  [ ("milk", ["milk", "cream", "butter", "cheese", "whey", "casein", "lactose", "ghee"]),
    ("eggs", ["egg", "eggs", "albumin", "lysozyme", "mayonnaise"]),
    ("fish", ["fish", "anchovies", "bass", "cod", "salmon", "tuna", "tilapia"]),
    ("shellfish", ["crab", "lobster", "shrimp", "prawns", "clams", "mussels", "oysters", "scallops"]),
    ("tree_nuts", ["almond", "cashew", "walnut", "pecan", "pistachio", "hazelnut", "macadamia"]),
    ("peanuts", ["peanut", "peanuts", "groundnut"]),
    ("wheat", ["wheat", "flour", "durum", "semolina", "spelt"]),
    ("soybeans", ["soy", "soya", "soybean", "tofu", "tempeh", "lecithin"]),
    ("sesame", ["sesame", "tahini"]) ]

/-- src/app.py `AllergenDetector.detect_allergens(ingredient_text)`: lowercase
the text, keep each category with the list of its keywords that occur as
whole words. -/
def detect_allergens (ingredient_text : String) : List (String × List String) :=
  let low := pyLower ingredient_text
  MAJOR_ALLERGENS.filterMap fun p =>
    let found := p.2.filter fun kw => reWordSearch kw low
    if found = [] then Option.none else some (p.1, found)

/-! ## Extracted label record

Field maps produced by the extraction collaborator (the JSON shapes consumed
by `validate_complete_label` and the module-level polyol correction block of
src/app.py). Absent/null JSON fields are `Option.none`; the numeric-looking
nutrition fields are JSON strings per the extraction prompts. -/

structure PDP where
  product_name : Option String
  product_name_english : Option String
  net_quantity_original : Option String
  net_quantity_us : Option String
  net_quantity_metric : Option String
  chilean_sellos : List String
  mexican_warnings : List String
  deriving DecidableEq, Repr

structure InfoPanel where
  ingredient_list_original : Option String
  ingredient_list_english : Option String
  allergen_statement_original : Option String
  allergen_statement_english : Option String
  manufacturer_name : Option String
  manufacturer_address : Option String
  country_of_origin : Option String
  deriving DecidableEq, Repr

structure LangDetection where
  primary_language : Option String
  deriving DecidableEq, Repr

structure NutritionFacts where
  present : Bool
  format : Option String
  calories : Option String
  sugar_alcohols_g : Option String
  added_sugars_g : Option String
  deriving DecidableEq, Repr

structure ExtractedLabel where
  principal_display_panel : PDP
  information_panel : InfoPanel
  language_detection : LangDetection
  nutrition_facts : NutritionFacts
  deriving DecidableEq, Repr

/-! ## Polyol (sweetener) correction block

Embeds the module-level correction logic of src/app.py lines 1620-1694 (the
"Complete Label Compliance" pipeline step run on the parsed extraction JSON
before `validate_complete_label`). The block communicates through Streamlit
UI messages; its externally observable effect is the rewrite of the two
nutrition fields, summarized here by a `PolyolAction` whose constructor
corresponds to the branch reached (`moved` = the single applied correction
that the success messages announce, `flaggedReview` = the manual-review
warning for the ambiguous polyols-plus-real-sugar case). -/

def polyol_keywords : List String :=
  [ "maltitol", "sorbitol", "xylitol", "erythritol", "isomalt", "mannitol",
    "lactitol", "polioles", "polyols", "polialcoholes",
    "jarabe de maltitol", "maltitol syrup", "sugar alcohol",
    "poliol", "alcohol de azúcar", "maltitol en polvo",
    "e965", "e420", "e967", "e968" ]

def real_sugar_keywords : List String :=
  [ "sugar", "azúcar", "sucrose", "sacarosa",
    "corn syrup", "jarabe de maíz", "high fructose",
    "honey", "miel", "glucose", "glucosa", "fructose", "fructosa",
    "dextrose", "dextrosa", "brown sugar", "cane sugar",
    "agave", "maple syrup" ]

inductive PolyolAction
  | noPolyols
  | alreadyZero
  | moved (amount : ℚ)
  | flaggedReview
  deriving DecidableEq, Repr

/-- The lowered combined ingredient text of the polyol correction block. -/
def polyolIngredientsCombined (info_panel : InfoPanel) : String :=
  pyLower (info_panel.ingredient_list_english.getD "") ++ " " ++
    pyLower (info_panel.ingredient_list_original.getD "")

/-- The `(added_sugars_val, sugar_alcohols_val)` pair of the block:
`try: float(raw) if raw else 0 ... except: both = 0`. -/
def polyolVals (nutrition : NutritionFacts) : ℚ × ℚ :=
  let added_sugars_raw := nutrition.added_sugars_g.getD "0"
  let sugar_alcohols_raw := nutrition.sugar_alcohols_g.getD "0"
  match (if added_sugars_raw ≠ "" then pyFloatOpt added_sugars_raw else some 0),
        (if sugar_alcohols_raw ≠ "" then pyFloatOpt sugar_alcohols_raw else some 0) with
  | some a, some b => (a, b)
  | _, _ => (0, 0)

/-- src/app.py lines 1620-1694: the polyol correction applied to the parsed
label data. -/
def polyol_correction (label_data : ExtractedLabel) : ExtractedLabel × PolyolAction :=
  let nutrition := label_data.nutrition_facts
  let info_panel := label_data.information_panel
  let ingredients_combined := polyolIngredientsCombined info_panel
  let detected_polyols := polyol_keywords.filter fun kw => pyIn kw ingredients_combined
  if detected_polyols ≠ [] then
    let added_sugars_val := (polyolVals nutrition).1
    if added_sugars_val > 0 then
      let has_real_sugar := real_sugar_keywords.any fun kw => pyIn kw ingredients_combined
      if !has_real_sugar then
        ({ label_data with
            nutrition_facts :=
              { nutrition with
                  sugar_alcohols_g := some (pyStrOfFloat added_sugars_val),
                  added_sugars_g := some "0" } },
          PolyolAction.moved added_sugars_val)
      else (label_data, PolyolAction.flaggedReview)
    else (label_data, PolyolAction.alreadyZero)
  else (label_data, PolyolAction.noPolyols)

/-! ## Calorie cross-check

Embeds `FDALabelValidator.validate_calorie_calculation`
(src/fda_validator.py lines 113-141, identically src/app.py lines 1033-1054).
The four fields are read with `data.get(key, 0)` and passed through
`float(...)`; a conversion failure is caught and reported in the message (the
CPython exception text appended by `str(e)` is not modelled). -/

def validate_calorie_calculation (total_fat_g total_carb_g protein_g calories : PyVal) :
    Bool × String × ℚ :=
  match pyFloatOf total_fat_g, pyFloatOf total_carb_g, pyFloatOf protein_g,
      pyFloatOf calories with
  | some fat_g, some carb_g, some protein_g, some stated_calories =>
    let calcInt := pyBankerRound
      (qAdd (qAdd (qMul fat_g (qOfNat 9)) (qMul carb_g (qOfNat 4)))
        (qMul protein_g (qOfNat 4)))
    let calculated : ℚ := qOfInt calcInt
    let tolerance : ℚ := mkRat 15 100
    let lower_bound := qMul calculated (qSub 1 tolerance)
    let upper_bound := qMul calculated (qAdd 1 tolerance)
    if lower_bound ≤ stated_calories ∧ stated_calories ≤ upper_bound then
      (true, "Calorie calculation verified", calculated)
    else
      (false,
        "Calorie mismatch: Stated " ++ pyStrOfFloat stated_calories ++
          ", Calculated " ++ toString calcInt,
        calculated)
  | _, _, _, _ => (false, "Error validating calories", 0)

/-! ## Numeric value clamping

Embeds `EnhancedFDAConverter._validate_numeric_values`
(src/fda_validator.py lines 292-323, identically src/app.py lines 1134-1164):
every malformed or negative numeric field is replaced by `'0'` and an error
string is recorded; no exception escapes. -/

def numeric_fields : List String :=
  [ "calories", "total_fat_g", "saturated_fat_g", "trans_fat_g",
    "cholesterol_mg", "sodium_mg", "total_carb_g", "fiber_g",
    "total_sugars_g", "added_sugars_g", "protein_g",
    "vitamin_d_mcg", "calcium_mg", "iron_mg", "potassium_mg" ]

/-- The per-field body of the `for field in numeric_fields` loop, for a field
present in the dict: the corrected value and the error entry (if any). -/
def validate_numeric_field (field : String) (value : PyVal) : PyVal × Option String :=
  match value with
  | PyVal.none => (PyVal.str "0", Option.none)
  | v =>
    if v = PyVal.str "" then (PyVal.str "0", Option.none)
    else
      match pyFloatOf v with
      | some float_val =>
        if float_val < 0 then
          (PyVal.str "0", some (field ++ " cannot be negative"))
        else (PyVal.str (pyStrOfFloat float_val), Option.none)
      | Option.none =>
        (PyVal.str "0", some ("Invalid numeric value for " ++ field))

/-- Association-list update (Python `dict[k] = v`; insertion at the end when
the key is new, in-place overwrite otherwise). -/
def dictSet : List (String × PyVal) → String → PyVal → List (String × PyVal)
  | [], k, v => [(k, v)]
  | (k', v') :: t, k, v =>
    if k' = k then (k', v) :: t else (k', v') :: dictSet t k v

def dictFind (d : List (String × PyVal)) (k : String) : Option PyVal :=
  (d.find? fun p => p.1 = k).map fun p => p.2

/-- `EnhancedFDAConverter._validate_numeric_values(data)`: returns the
corrected dict together with the `self.errors` entries appended by the loop. -/
def validate_numeric_values (data : List (String × PyVal)) :
    List (String × PyVal) × List String :=
  numeric_fields.foldl
    (fun (acc : List (String × PyVal) × List String) field =>
      match dictFind acc.1 field with
      | some value =>
        let (v', err) := validate_numeric_field field value
        (dictSet acc.1 field v', acc.2 ++ err.toList)
      | Option.none => (dictSet acc.1 field (PyVal.str "0"), acc.2))
    (data, [])

/-! ## Complete label validator

Embeds `CompleteLabelValidator.validate_complete_label` (src/app.py lines
65-361). The function is a straight-line sequence of checks appending into
the `issues` / `changes_made` / `compliance_risks` accumulators; it is
modelled as the in-order concatenation of one contribution per check. The
`redesign_data` entry of the returned dict (built by
`_generate_redesign_specification`, presentation-layer layout data) is not
modelled; no claim refers to it. The free variable `origin_country` read at
line 189 is the module-level Streamlit selectbox value (src/app.py line
1326), passed here as an explicit parameter. -/

inductive PyExn
  | valueError
  deriving DecidableEq, Repr

structure ComplianceIssueR where
  requirement : String
  issue : String
  regulation : String
  fix : String
  risk : String
  deriving DecidableEq, Repr

/-- Accumulated contributions of the checks: the four issue severity lists
plus the `changes_made` and `compliance_risks` lists. -/
structure Contrib where
  critical : List ComplianceIssueR := []
  major : List ComplianceIssueR := []
  minor : List ComplianceIssueR := []
  passed : List String := []
  changes : List String := []
  risks : List String := []
  deriving DecidableEq, Repr

def Contrib.append (a b : Contrib) : Contrib :=
  { critical := a.critical ++ b.critical
    major := a.major ++ b.major
    minor := a.minor ++ b.minor
    passed := a.passed ++ b.passed
    changes := a.changes ++ b.changes
    risks := a.risks ++ b.risks }

instance : Append Contrib := ⟨Contrib.append⟩

/-- Check 1 (src/app.py lines 79-94): statement of identity. -/
def checkIdentity (pdp : PDP) : Contrib :=
  if !truthyS pdp.product_name then
    { critical := [{ requirement := "Statement of Identity (21 CFR 101.3)"
                     issue := "Product name not found"
                     regulation := "21 CFR 101.3"
                     fix := "Add common/usual name (e.g., \"Strawberry Jam\", \"Corn Tortillas\")"
                     risk := "EXPORT BLOCKER - Customs will reject without clear product identity" }]
      risks := ["Missing Statement of Identity"] }
  else
    { passed := ["✅ Statement of Identity present"]
      changes :=
        if truthyS pdp.product_name_english ∧ pdp.product_name ≠ pdp.product_name_english then
          ["Translated product name: \x27" ++ pdp.product_name.getD "" ++
            "\x27 → \x27" ++ pdp.product_name_english.getD "" ++ "\x27"]
        else [] }

/-- First match of `re.search(r'(\d+\.?\d*)', s)`, starting at the first
digit: greedy digits, optional dot, greedy fraction digits. -/
def grabNumber (l : List Char) : List Char :=
  let (ds, r) := l.span Char.isDigit
  match r with
  | '.' :: r2 => ds ++ '.' :: (r2.span Char.isDigit).1
  | _ => ds

def firstNumberToken : List Char → Option (List Char)
  | [] => Option.none
  | c :: t => if c.isDigit then some (grabNumber (c :: t)) else firstNumberToken t

/-- `float(...)` of a token produced by `grabNumber`. -/
def numeralVal (tok : List Char) : ℚ :=
  let (ds, r) := tok.span Char.isDigit
  match r with
  | '.' :: fs => mantissaVal ds fs
  | _ => mantissaVal ds []

/-- The `has_us` condition of the net-quantity check. -/
def netQtyHasUS (pdp : PDP) : Bool :=
  truthyS pdp.net_quantity_us ||
    (pyIn "oz" (pyLower (pdp.net_quantity_original.getD "")) ||
      pyIn "lb" (pyLower (pdp.net_quantity_original.getD "")) ||
      pyIn "fl oz" (pyLower (pdp.net_quantity_original.getD "")))

/-- The `has_metric` condition of the net-quantity check. -/
def netQtyHasMetric (pdp : PDP) : Bool :=
  truthyS pdp.net_quantity_metric ||
    (pyIn "g" (pyLower (pdp.net_quantity_original.getD "")) ||
      pyIn "kg" (pyLower (pdp.net_quantity_original.getD "")) ||
      pyIn "ml" (pyLower (pdp.net_quantity_original.getD "")) ||
      pyIn "l" (pyLower (pdp.net_quantity_original.getD "")))

/-- Check 2 (src/app.py lines 96-146): net quantity declaration. A missing
US-unit family is a critical issue; a missing metric family is a major
issue. -/
def checkNetQty (pdp : PDP) : Contrib :=
  let net_qty_original := pdp.net_quantity_original.getD ""
  if net_qty_original = "" then
    { critical := [{ requirement := "Net Quantity Declaration (21 CFR 101.105)"
                     issue := "Net quantity not found on label"
                     regulation := "21 CFR 101.105"
                     fix := "Add: \"Net Wt [US units] ([metric])\" - e.g., \"Net Wt 17.6 oz (500g)\""
                     risk := "EXPORT BLOCKER - Required by law" }]
      risks := ["Missing Net Quantity"] }
  else
    let usPart : Contrib :=
      if !netQtyHasUS pdp then
        { critical := [{ requirement := "Net Quantity - US Units Required"
                         issue := "Missing US customary units (oz, lb, fl oz)"
                         regulation := "21 CFR 101.105(a)"
                         fix := "Convert " ++ pyOr pdp.net_quantity_metric net_qty_original ++
                           " to US units and add"
                         risk := "EXPORT BLOCKER - US units mandatory" }]
          risks := ["Missing US units in net quantity"]
          changes :=
            if truthyS pdp.net_quantity_metric then
              let m := pdp.net_quantity_metric.getD ""
              match firstNumberToken m.data with
              | some tok =>
                let val := numeralVal tok
                if pyIn "kg" (pyLower m) then
                  ["Calculated US units: " ++ pyStrOfFloat val ++ "kg = " ++
                    pyStrOfFloat (pyRoundTo (qMul val (mkRat 35274 1000)) 1) ++ " oz"]
                else if pyIn "g" (pyLower m) then
                  ["Calculated US units: " ++ pyStrOfFloat val ++ "g = " ++
                    pyStrOfFloat (pyRoundTo (qDiv val (mkRat 2835 100)) 1) ++ " oz"]
                else []
              | Option.none => []
            else [] }
      else {}
    let metricPart : Contrib :=
      if !netQtyHasMetric pdp then
        { major := [{ requirement := "Net Quantity - Metric Units"
                      issue := "Missing metric units"
                      regulation := "21 CFR 101.105(a)"
                      fix := "Add metric equivalent in parentheses"
                      risk := "Non-compliance with dual declaration requirement" }] }
      else {}
    let bothPart : Contrib :=
      if netQtyHasUS pdp && netQtyHasMetric pdp then
        { passed := ["✅ Net quantity in both US and metric units"] }
      else {}
    usPart ++ metricPart ++ bothPart

/-- The guarded conversion pattern `o and float(o) <cmp> c`: a falsy value
short-circuits without parsing; a truthy unparseable value raises. -/
def floatIfTruthy (o : Option String) : Except PyExn (Option ℚ) :=
  if truthyS o then
    match pyFloatOpt (o.getD "") with
    | some v => Except.ok (some v)
    | Option.none => Except.error PyExn.valueError
  else Except.ok Option.none

/-- The ten polyol keywords of the nutrition-facts check (src/app.py line
183; distinct from the expanded list of the module-level correction block). -/
def polyol_keywords_check : List String :=
  [ "maltitol", "sorbitol", "xylitol", "erythritol", "isomalt", "mannitol",
    "lactitol", "polioles", "polyols", "polialcoholes" ]

/-- Check 3 (src/app.py lines 148-215): nutrition facts panel, format, and
the sugar-alcohol consistency warnings. The bare `float(...)` calls at lines
177, 193, 196 and 207 are not wrapped in a `try` and propagate a
`ValueError` on a truthy non-numeric string. -/
def checkNutrition (origin_country : String) (info : InfoPanel)
    (nutrition : NutritionFacts) : Except PyExn Contrib :=
  if !nutrition.present then
    Except.ok
      { critical := [{ requirement := "Nutrition Facts Panel (21 CFR 101.9)"
                       issue := "Nutrition Facts panel not detected"
                       regulation := "21 CFR 101.9"
                       fix := "Add complete Nutrition Facts panel in 2016 format"
                       risk := "EXPORT BLOCKER - Mandatory for all packaged foods" }]
        risks := ["Missing Nutrition Facts"] }
  else
    let nf_format := nutrition.format.getD ""
    let formatPart : Contrib :=
      if nf_format ≠ "" ∧ nf_format ≠ "US" ∧ nf_format ≠ "Unknown" then
        { major := [{ requirement := "Nutrition Facts Format"
                      issue := "Using " ++ nf_format ++ " format, not US FDA format"
                      regulation := "21 CFR 101.9"
                      fix := "Convert to US FDA 2016 format with required order and formatting"
                      risk := "Will be rejected - must use US format" }]
          changes := ["Converting from " ++ nf_format ++ " format to US FDA format"] }
      else { passed := ["✅ Nutrition Facts panel present"] }
    let sugar_alcohols := nutrition.sugar_alcohols_g
    let added_sugars := nutrition.added_sugars_g
    match floatIfTruthy sugar_alcohols with
    | Except.error e => Except.error e
    | Except.ok saVal? =>
      let saPart : Contrib :=
        match saVal? with
        | some v =>
          if v > 0 then
            { changes := ["Identified " ++ sugar_alcohols.getD "" ++
                "g sugar alcohols (polyols) - these are NOT added sugars"]
              passed := ["✅ Sugar alcohols properly separated from added sugars"] }
          else {}
        | Option.none => {}
      let ingredients_text :=
        pyLower (pyOr info.ingredient_list_english (info.ingredient_list_original.getD ""))
      let has_polyols := polyol_keywords_check.any fun kw => pyIn kw ingredients_text
      if has_polyols then
        -- the source converts `added_sugars` twice (line 193 inside the
        -- Mexican branch and line 207); both convert the same string, so
        -- they are modelled by this single conversion, raising `ValueError`
        -- at exactly the same inputs
        match floatIfTruthy added_sugars with
        | Except.error e => Except.error e
        | Except.ok asVal? =>
          let is_mexican := nf_format ≠ "" ∧ pyIn "mexican" (pyLower nf_format) = true
          let mexican_origin := origin_country ≠ "" ∧ pyIn "mexico" (pyLower origin_country) = true
          let mexPart : Contrib :=
            if is_mexican ∨ mexican_origin then
              { changes := ["⚠️ MEXICAN LABEL: Polyols detected - Mexican \x27Azúcares añadidos\x27 correctly excludes polyols (same as FDA)"] } ++
                match asVal? with
                | some v =>
                  if v = 0 then
                    { passed := ["✅ Added sugars = 0g is correct for products with only polyols"] }
                  else {}
                | Option.none => {}
            else {}
          -- line 196: `not sugar_alcohols or float(sugar_alcohols) == 0`; a truthy
          -- value was already converted at line 177, so no new exception arises
          let saMissing : Bool :=
            match saVal? with
            | Option.none => true
            | some v => v = 0
          let p2 : Contrib :=
            if saMissing then
              { major := [{ requirement := "Sugar Alcohols Declaration"
                            issue := "Sugar alcohols/polyols detected in ingredients but not listed in nutrition facts"
                            regulation := "21 CFR 101.9(c)(6)(iii)"
                            fix := "Add separate line: \"Sugar Alcohol Xg\" (indented under Total Carbohydrate)"
                            risk := "Incomplete nutrition information" }]
                changes := ["⚠️ WARNING: Polyols in ingredients - must be declared separately on US labels"] }
            else {}
          let p3 : Contrib :=
            match asVal? with
            | some v =>
              if v > 0 then
                { major := [{ requirement := "Added Sugars vs Sugar Alcohols"
                              issue := "Product contains polyols - verify added sugars do not include sugar alcohols"
                              regulation := "21 CFR 101.9(c)(6)(iii)"
                              fix := "Separate polyols from added sugars. If only sweetener is polyols, added sugars should be 0g"
                              risk := "Incorrect added sugars declaration" }]
                  changes := ["⚠️ VERIFY: Product has polyols - ensure added sugars calculation excludes them"] }
              else {}
            | Option.none => {}
          Except.ok (formatPart ++ saPart ++ mexPart ++ p2 ++ p3)
      else Except.ok (formatPart ++ saPart)

/-- The list of detected-but-undeclared allergen names (titled), exactly as
built by the loop at src/app.py lines 244-250. -/
def missingAllergens (detected : List (String × List String))
    (allergen_text : String) : List String :=
  ((detected.map fun p => (⟨p.1.data.map fun c => if c = '_' then ' ' else c⟩ : String)).filter
    fun nm => !pyIn nm allergen_text).map pyTitle

/-- Check 4 (src/app.py lines 217-267): ingredient list and the allergen
cross-check. Returns the contribution and the detected-allergen map (empty
when the ingredient list is absent, matching `detected if
ingredients_original else {}` at line 351). -/
def checkIngredients (info : InfoPanel) (lang : LangDetection) :
    Contrib × List (String × List String) :=
  let ingredients_original := info.ingredient_list_original.getD ""
  let ingredients_english := info.ingredient_list_english.getD ""
  if ingredients_original = "" then
    ({ critical := [{ requirement := "Ingredient List (21 CFR 101.4)"
                      issue := "Ingredient list not found"
                      regulation := "21 CFR 101.4"
                      fix := "Add complete ingredient list in descending order by weight"
                      risk := "EXPORT BLOCKER - Mandatory requirement" }]
       risks := ["Missing Ingredient List"] }, [])
  else
    let base : Contrib := { passed := ["✅ Ingredient list present"] }
    let primary_lang := pyLower (lang.primary_language.getD "")
    let transPart : Contrib :=
      if (primary_lang = "spanish" ∨ primary_lang = "portuguese") ∧ ingredients_english ≠ "" then
        { changes := ["Translated ingredients from " ++ pyTitle primary_lang ++ " to English"] }
      else {}
    let detected := detect_allergens (pyOrS ingredients_english ingredients_original)
    let allergen_stmt_original := info.allergen_statement_original.getD ""
    let allergen_stmt_english := info.allergen_statement_english.getD ""
    let allergenPart : Contrib :=
      if detected ≠ [] then
        let allergen_text := pyLower (pyOrS allergen_stmt_english (pyOrS allergen_stmt_original ""))
        let missing := missingAllergens detected allergen_text
        if missing ≠ [] then
          { critical := [{ requirement := "Allergen Declaration (21 CFR 101.22)"
                           issue := "Allergens detected but not declared: " ++
                             String.intercalate ", " missing
                           regulation := "21 CFR 101.22"
                           fix := "Add: \"CONTAINS: " ++
                             String.intercalate ", " (missing.map pyUpper) ++ "\""
                           risk := "EXPORT BLOCKER - Allergen declaration mandatory" }]
            risks := ["Missing allergen declarations"]
            changes := ["Added allergen declaration for: " ++ String.intercalate ", " missing] }
        else
          { passed := ["✅ Allergens properly declared"]
            changes :=
              if allergen_stmt_original ≠ "" ∧ allergen_stmt_english ≠ "" ∧
                  allergen_stmt_original ≠ allergen_stmt_english then
                ["Translated allergen statement to English"]
              else [] }
      else {}
    (base ++ transPart ++ allergenPart, detected)

/-- Check 5 (src/app.py lines 269-292): manufacturer identification and the
import-statement follow-up. -/
def checkManufacturer (info : InfoPanel) : Contrib :=
  if !truthyS info.manufacturer_name then
    { critical := [{ requirement := "Manufacturer Information (21 CFR 101.5)"
                     issue := "Manufacturer name and address not found"
                     regulation := "21 CFR 101.5"
                     fix := "Add: \"Manufactured for [Company Name], [City, State ZIP]\" or \"Imported by [Company], [City, State ZIP]\""
                     risk := "EXPORT BLOCKER - Must identify responsible party" }]
      risks := ["Missing Manufacturer Information"] }
  else
    let base : Contrib := { passed := ["✅ Manufacturer information present"] }
    let country := pyLower (info.country_of_origin.getD "")
    if country ≠ "" ∧ pyIn "usa" country = false ∧ pyIn "united states" country = false then
      if pyIn "imported" (pyLower (info.manufacturer_address.getD "")) = false then
        base ++
          { major := [{ requirement := "Country of Origin Declaration"
                        issue := "Product from " ++ country ++ " but no \"Imported by\" statement"
                        regulation := "19 CFR 134.1"
                        fix := "Add: \"Imported from " ++ pyTitle country ++ "\" and US importer address"
                        risk := "Customs may reject - origin must be clear" }] }
      else base
    else base

/-- Step 2 of the function (src/app.py lines 294-323): Chilean sellos,
Mexican warnings, and the English-language requirement. An absent or empty
`primary_language` takes the `else` branch and records a pass. -/
def checkLocalization (pdp : PDP) (lang : LangDetection) : Contrib :=
  let sellosPart : Contrib :=
    if pdp.chilean_sellos ≠ [] then
      { changes := ["Removed Chilean \x27Sellos\x27 (black octagons): " ++
          String.intercalate ", " pdp.chilean_sellos,
          "Note: High sugar/fat content reflected in Nutrition Facts panel instead"]
        passed := ["✅ Chilean sellos identified and removed (FDA uses Nutrition Facts only)"] }
    else {}
  let mexPart : Contrib :=
    if pdp.mexican_warnings ≠ [] then
      { changes := ["Removed Mexican front-of-pack warnings: " ++
          String.intercalate ", " pdp.mexican_warnings,
          "Note: Nutrient content shown in Nutrition Facts panel"]
        passed := ["✅ Mexican warnings identified and removed (not used in US)"] }
    else {}
  let primary := lang.primary_language.getD ""
  let langPart : Contrib :=
    if primary ≠ "" ∧ pyLower primary ≠ "english" ∧ pyLower primary ≠ "unknown" then
      { critical := [{ requirement := "English Language (21 CFR 101.15)"
                       issue := "Label primarily in " ++ primary
                       regulation := "21 CFR 101.15(a)"
                       fix := "Translate all required information to English (bilingual labels OK)"
                       risk := "EXPORT BLOCKER - English is mandatory" }]
        risks := ["Not in English"]
        changes := ["Translated entire label from " ++ primary ++ " to English"] }
    else { passed := ["✅ English language requirement met"] }
  sellosPart ++ mexPart ++ langPart

structure IssuesR where
  critical : List ComplianceIssueR
  major : List ComplianceIssueR
  minor : List ComplianceIssueR
  passed : List String
  deriving DecidableEq, Repr

structure AuditSummary where
  critical_issues : ℕ
  major_issues : ℕ
  minor_issues : ℕ
  passed_checks : ℕ
  total_changes : ℕ
  risk_level : String
  deriving DecidableEq, Repr

structure ComplianceReport where
  compliance_score : ℤ
  export_ready : Bool
  status : String
  issues : IssuesR
  total_issues : ℕ
  changes_made : List String
  compliance_risks : List String
  detected_allergens : List (String × List String)
  audit_summary : AuditSummary
  deriving DecidableEq, Repr

/-- The compliance-summary tail of `validate_complete_label` (src/app.py
lines 325-361): score, terminal status, export flag and audit summary. -/
def summarize (issues : Contrib) (detected : List (String × List String)) :
    ComplianceReport :=
  let total_critical := issues.critical.length
  let total_major := issues.major.length
  let compliance_score : ℤ :=
    max 0 (100 - (total_critical : ℤ) * 20 - (total_major : ℤ) * 10)
  let status : String :=
    if total_critical = 0 then "FDA COMPLIANT - READY FOR US MARKET"
    else if total_critical ≤ 2 then "NEEDS FIXES - Close to compliance"
    else "MAJOR REVISION REQUIRED"
  let export_ready : Bool := total_critical = 0
  { compliance_score := compliance_score
    export_ready := export_ready
    status := status
    issues := { critical := issues.critical, major := issues.major,
                minor := issues.minor, passed := issues.passed }
    total_issues := total_critical + total_major
    changes_made := issues.changes
    compliance_risks := issues.risks
    detected_allergens := detected
    audit_summary :=
      { critical_issues := total_critical
        major_issues := total_major
        minor_issues := issues.minor.length
        passed_checks := issues.passed.length
        total_changes := issues.changes.length
        risk_level :=
          if total_critical ≥ 3 then "HIGH"
          else if total_critical > 0 then "MEDIUM" else "LOW" } }

/-- src/app.py `CompleteLabelValidator.validate_complete_label`: the checks
run in program order; an uncaught `ValueError` from check 3 propagates to
the caller. -/
def validate_complete_label (origin_country : String)
    (extracted_data : ExtractedLabel) : Except PyExn ComplianceReport :=
  let pdp := extracted_data.principal_display_panel
  let info := extracted_data.information_panel
  let lang := extracted_data.language_detection
  let nutrition := extracted_data.nutrition_facts
  let s1 := checkIdentity pdp
  let s2 := checkNetQty pdp
  match checkNutrition origin_country info nutrition with
  | Except.error e => Except.error e
  | Except.ok s3 =>
    let s4d := checkIngredients info lang
    let s5 := checkManufacturer info
    let s6 := checkLocalization pdp lang
    Except.ok (summarize (s1 ++ s2 ++ s3 ++ s4d.1 ++ s5 ++ s6) s4d.2)

/-! ## Helper notions for the statements -/

instance {ε α : Type} [DecidableEq ε] [DecidableEq α] : DecidableEq (Except ε α) :=
  fun a b =>
    match a, b with
    | .error e, .error f =>
      if h : e = f then .isTrue (h ▸ rfl) else .isFalse fun c => by cases c; exact h rfl
    | .ok x, .ok y =>
      if h : x = y then .isTrue (h ▸ rfl) else .isFalse fun c => by cases c; exact h rfl
    | .error _, .ok _ => .isFalse fun c => by cases c
    | .ok _, .error _ => .isFalse fun c => by cases c

/-- Number of issues in a list carrying a given requirement heading. -/
def countReq : List ComplianceIssueR → String → ℕ
  | [], _ => 0
  | x :: t, r => (if x.requirement = r then 1 else 0) + countReq t r

/-! ## Concrete audit records used as inputs of the closed theorems -/

/-- The completely absent extraction record: every field missing. -/
def emptyLabel : ExtractedLabel :=
  { principal_display_panel :=
      { product_name := Option.none, product_name_english := Option.none,
        net_quantity_original := Option.none, net_quantity_us := Option.none,
        net_quantity_metric := Option.none, chilean_sellos := [], mexican_warnings := [] },
    information_panel :=
      { ingredient_list_original := Option.none, ingredient_list_english := Option.none,
        allergen_statement_original := Option.none, allergen_statement_english := Option.none,
        manufacturer_name := Option.none, manufacturer_address := Option.none,
        country_of_origin := Option.none },
    language_detection := { primary_language := Option.none },
    nutrition_facts :=
      { present := false, format := Option.none, calories := Option.none,
        sugar_alcohols_g := Option.none, added_sugars_g := Option.none } }

def pdpScenarioD : PDP :=
  { product_name := some "Strawberry Jam", product_name_english := Option.none,
    net_quantity_original := some "17.6 oz", net_quantity_us := Option.none,
    net_quantity_metric := Option.none, chilean_sellos := [], mexican_warnings := [] }

def infoScenarioD : InfoPanel :=
  { ingredient_list_original := some "strawberries, pectin",
    ingredient_list_english := Option.none,
    allergen_statement_original := Option.none, allergen_statement_english := Option.none,
    manufacturer_name := Option.none, manufacturer_address := Option.none,
    country_of_origin := Option.none }

def nfScenarioD : NutritionFacts :=
  { present := true, format := some "US", calories := Option.none,
    sugar_alcohols_g := Option.none, added_sugars_g := Option.none }

/-- Scenario: net quantity declared only in US customary units, manufacturer
identification missing, every other mandatory element present. -/
def labelScenarioD : ExtractedLabel :=
  { principal_display_panel := pdpScenarioD,
    information_panel := infoScenarioD,
    language_detection := { primary_language := some "English" },
    nutrition_facts := nfScenarioD }

def infoAllergenPair : InfoPanel :=
  { ingredient_list_original := some "milk, egg", ingredient_list_english := Option.none,
    allergen_statement_original := Option.none, allergen_statement_english := Option.none,
    manufacturer_name := Option.none, manufacturer_address := Option.none,
    country_of_origin := Option.none }

/-- Ingredient text containing two undeclared allergen categories (milk via
`milk`, eggs via `egg`) and no allergen statement. -/
def labelAllergenPair : ExtractedLabel :=
  { emptyLabel with information_panel := infoAllergenPair }

def nfBadSugarAlcohols : NutritionFacts :=
  { present := true, format := Option.none, calories := Option.none,
    sugar_alcohols_g := some "abc", added_sugars_g := Option.none }

/-- Nutrition facts present with a truthy non-numeric `sugar_alcohols_g`. -/
def labelBadSugarAlcohols : ExtractedLabel :=
  { emptyLabel with nutrition_facts := nfBadSugarAlcohols }

def nfMaltitol : NutritionFacts :=
  { present := true, format := Option.none, calories := Option.none,
    sugar_alcohols_g := Option.none, added_sugars_g := some "12" }

def infoMaltitol : InfoPanel :=
  { ingredient_list_original := some "maltitol", ingredient_list_english := Option.none,
    allergen_statement_original := Option.none, allergen_statement_english := Option.none,
    manufacturer_name := Option.none, manufacturer_address := Option.none,
    country_of_origin := Option.none }

/-- Scenario C of the specification: ingredients `maltitol`, extracted added
sugars 12, no genuine caloric sugar. -/
def labelMaltitol : ExtractedLabel :=
  { emptyLabel with information_panel := infoMaltitol, nutrition_facts := nfMaltitol }

def infoMaltitolSugar : InfoPanel :=
  { infoMaltitol with ingredient_list_original := some "maltitol, sugar" }

/-- The ambiguous case: both a polyol keyword and a genuine sugar keyword. -/
def labelMaltitolSugar : ExtractedLabel :=
  { labelMaltitol with information_panel := infoMaltitolSugar }

def nfMaltitolBadAlcohols : NutritionFacts :=
  { present := true, format := Option.none, calories := Option.none,
    sugar_alcohols_g := some "abc", added_sugars_g := some "12" }

/-- Ingredients `maltitol`, extracted added sugars "12" (strictly positive,
no genuine caloric sugar), but a truthy non-numeric `sugar_alcohols_g`: the
correction block's shared `except` clause zeroes both working values. -/
def labelMaltitolBadAlcohols : ExtractedLabel :=
  { emptyLabel with information_panel := infoMaltitol, nutrition_facts := nfMaltitolBadAlcohols }

/-! ## Theorems

First, the bridge lemmas: the kernel-computable wrappers denote the standard
rational operations, so every definition above is ordinary exact arithmetic. -/

theorem qOfInt_eq (n : ℤ) : qOfInt n = (n : ℚ) := by
  rw [qOfInt, Rat.mkRat_eq_div]; simp

theorem qOfNat_eq (n : ℕ) : qOfNat n = (n : ℚ) := by
  rw [qOfNat, Rat.mkRat_eq_div]; simp

theorem qPow10_eq (k : ℕ) : qPow10 k = (10 : ℚ) ^ k := by
  rw [qPow10, Rat.mkRat_eq_div]; push_cast; simp

theorem qAdd_eq (a b : ℚ) : qAdd a b = a + b := by
  have ha : (a.den : ℚ) ≠ 0 := Nat.cast_ne_zero.mpr a.den_nz
  have hb : (b.den : ℚ) ≠ 0 := Nat.cast_ne_zero.mpr b.den_nz
  rw [qAdd, Rat.mkRat_eq_div]
  conv_rhs => rw [← Rat.num_div_den a, ← Rat.num_div_den b]
  rw [div_add_div _ _ ha hb]
  push_cast
  ring

theorem qNeg_eq (a : ℚ) : qNeg a = -a := by
  rw [qNeg, Rat.mkRat_eq_div]
  conv_rhs => rw [← Rat.num_div_den a]
  push_cast
  ring

theorem qSub_eq (a b : ℚ) : qSub a b = a - b := by
  rw [qSub, qAdd_eq, qNeg_eq, sub_eq_add_neg]

theorem qMul_eq (a b : ℚ) : qMul a b = a * b := by
  rw [qMul, Rat.mkRat_eq_div]
  conv_rhs => rw [← Rat.num_div_den a, ← Rat.num_div_den b]
  rw [div_mul_div_comm]
  push_cast
  ring

theorem qInv_eq (a : ℚ) : qInv a = a⁻¹ := by
  rw [qInv, Rat.inv_def']
  split_ifs with h
  · have hn : ((a.num.natAbs : ℕ) : ℤ) = -a.num :=
      Int.ofNat_natAbs_of_nonpos (le_of_lt h)
    rw [Rat.mkRat_eq_divInt, hn]
    simp [Rat.neg_divInt, Rat.divInt_neg]
  · have hn : ((a.num.natAbs : ℕ) : ℤ) = a.num := Int.natAbs_of_nonneg (not_lt.mp h)
    rw [Rat.mkRat_eq_divInt, hn]

theorem qDiv_eq (a b : ℚ) : qDiv a b = a / b := by
  rw [qDiv, qMul_eq, qInv_eq, div_eq_mul_inv]

/-! ### Structural lemmas about the accumulator and substring search -/

@[simp] theorem Contrib.append_critical (a b : Contrib) :
    (a ++ b).critical = a.critical ++ b.critical := rfl

@[simp] theorem Contrib.append_major (a b : Contrib) :
    (a ++ b).major = a.major ++ b.major := rfl

@[simp] theorem Contrib.append_minor (a b : Contrib) :
    (a ++ b).minor = a.minor ++ b.minor := rfl

@[simp] theorem Contrib.append_passed (a b : Contrib) :
    (a ++ b).passed = a.passed ++ b.passed := rfl

@[simp] theorem Contrib.append_changes (a b : Contrib) :
    (a ++ b).changes = a.changes ++ b.changes := rfl

@[simp] theorem Contrib.append_risks (a b : Contrib) :
    (a ++ b).risks = a.risks ++ b.risks := rfl

theorem countReq_append (a b : List ComplianceIssueR) (r : String) :
    countReq (a ++ b) r = countReq a r + countReq b r := by
  induction a with
  | nil => simp [countReq]
  | cons x t ih =>
    show (if x.requirement = r then 1 else 0) + countReq (t ++ b) r =
      ((if x.requirement = r then 1 else 0) + countReq t r) + countReq b r
    rw [ih]
    omega

theorem countReq_eq_zero (l : List ComplianceIssueR) (r : String)
    (h : ∀ i ∈ l, i.requirement ≠ r) : countReq l r = 0 := by
  induction l with
  | nil => rfl
  | cons x t ih =>
    simp only [countReq, if_neg (h x (List.mem_cons_self x t)), Nat.zero_add]
    exact ih fun i hi => h i (List.mem_cons_of_mem x hi)

theorem chListStarts_append (b c : List Char) : chListStarts (b ++ c) b = true := by
  induction b with
  | nil => cases c <;> rfl
  | cons x t ih => simpa [chListStarts] using ih

theorem chListHas_of_starts {l n : List Char} (h : chListStarts l n = true) :
    chListHas l n = true := by
  cases l with
  | nil => simpa [chListHas] using h
  | cons a t => simp [chListHas, h]

theorem chListHas_append_left (a : List Char) {t n : List Char}
    (h : chListHas t n = true) : chListHas (a ++ t) n = true := by
  induction a with
  | nil => simpa using h
  | cons x s ih => simp [chListHas, ih]

/-- A string is found inside any sandwich around it. -/
theorem pyIn_sandwich (a b c : String) : pyIn b (a ++ b ++ c) = true := by
  have hdata : (a ++ b ++ c).data = a.data ++ (b.data ++ c.data) := by
    cases a with
    | mk da => cases b with
      | mk db => cases c with
        | mk dc => simp [String.instAppend, String.append, List.append_assoc]
  rw [pyIn, hdata]
  exact chListHas_append_left a.data
    (chListHas_of_starts (chListStarts_append b.data c.data))

/-! ### C1 — trans-fat sub-0.5 collapse across the rounding implementations -/

/-- C1: the claim demands that rounding a value below 0.5 with nutrient
category `trans_fat` yield the display string "0" in every rounding
implementation the core provides. `apply_fda_rounding_rules` (src/app.py)
does collapse 0.49999 to "0", but `FDALabelValidator.round_by_fda_rules`
(src/fda_validator.py) has no `trans_fat` key in `ROUNDING_RULES` and falls
through to `round(value, 1)`: at 0.49999 it returns the number 0.5 — the
mandated collapse is skipped (and no display string is produced at all). -/
theorem trans_fat_sub_half_divergence :
    round_by_fda_rules (mkRat 49999 100000) "trans_fat" = mkRat 1 2 ∧
    mkRat 1 2 ≠ (0 : ℚ) ∧
    apply_fda_rounding_rules (PyVal.num (mkRat 49999 100000)) "trans_fat" = "0" := by
  exact ⟨by decide, by decide, by decide⟩

/-! ### C9 — whole-word allergen matching -/

/-- C9: allergen detection matches at whole-word boundaries: "peanut oil"
yields category `peanuts` with matched keyword `peanut`; "a peanutty flavor"
yields no match at all; the standalone token "peanuts" yields category
`peanuts` (via its plural keyword). -/
theorem allergen_whole_word_matching :
    detect_allergens "peanut oil" = [("peanuts", ["peanut"])] ∧
    detect_allergens "a peanutty flavor" = [] ∧
    detect_allergens "peanuts" = [("peanuts", ["peanuts"])] := by
  exact ⟨by decide, by decide, by decide⟩

/-! ### C6 — a malformed sugar-alcohols string crashes the validator -/

/-- C6 (failing input): `validate_complete_label` evaluates
`float(sugar_alcohols)` at src/app.py line 177 with no `try` around it; on a
record whose nutrition panel is present and whose `sugar_alcohols_g` is the
truthy non-numeric string "abc", the call raises `ValueError` out of the
core instead of clamping to zero and recording a warning. -/
theorem unparseable_sugar_alcohols_raises :
    validate_complete_label "🇨🇱 Chile" labelBadSugarAlcohols =
      Except.error PyExn.valueError := by
  decide

/-- Contrast for C6: the guarded reader `_validate_numeric_values` does
implement the clamp-to-zero-and-record contract for a malformed string. -/
theorem validate_numeric_field_clamps (f s : String)
    (hmal : pyFloatOpt s = Option.none) (hne : s ≠ "") :
    validate_numeric_field f (PyVal.str s) =
      (PyVal.str "0", some ("Invalid numeric value for " ++ f)) := by
  simp only [validate_numeric_field]
  rw [if_neg (by simpa using hne)]
  rw [show pyFloatOf (PyVal.str s) = Option.none from hmal]

/-- Witness for `validate_numeric_field_clamps` at field `sodium_mg`,
value "abc". -/
theorem validate_numeric_field_clamps_witness :
    validate_numeric_field "sodium_mg" (PyVal.str "abc") =
      (PyVal.str "0", some ("Invalid numeric value for " ++ "sodium_mg")) :=
  validate_numeric_field_clamps "sodium_mg" "abc" (by decide) (by decide)

/-! ### C7 — behaviour on the completely absent record -/

/-- C7 (counterexample): on the empty record the language check does not
produce a critical 'missing' issue — an absent `primary_language` takes the
`else` branch at src/app.py line 312 and records the pass "✅ English
language requirement met", contradicting the claim that every structural
check (the language check included) yields a critical issue. -/
theorem empty_record_language_pass :
    (validate_complete_label "🇨🇱 Chile" emptyLabel).map
        (fun r => (countReq r.issues.critical "English Language (21 CFR 101.15)",
          r.issues.passed)) =
      Except.ok (0, ["✅ English language requirement met"]) := by
  decide

/-- C7 (amended): on the completely absent record the validator still returns
a report (no exception); the five presence checks — statement of identity,
net quantity, nutrition panel, ingredient list, manufacturer — each yield a
critical missing issue, while the language check records a pass (an absent
language detection is treated as English-compatible); the score is 0 and the
status is the major-revision variant. -/
theorem empty_record_report :
    (validate_complete_label "🇨🇱 Chile" emptyLabel).map
        (fun r => (r.issues.critical.map fun i => i.requirement,
          r.issues.passed, r.compliance_score, r.status)) =
      Except.ok
        (["Statement of Identity (21 CFR 101.3)",
          "Net Quantity Declaration (21 CFR 101.105)",
          "Nutrition Facts Panel (21 CFR 101.9)",
          "Ingredient List (21 CFR 101.4)",
          "Manufacturer Information (21 CFR 101.5)"],
          ["✅ English language requirement met"], 0, "MAJOR REVISION REQUIRED") := by
  decide

/-! ### C8 — metric preservation of the serving-size conversion -/

/-- C8 (counterexample): the parsed conversion route prints `int(amount)`,
truncating a fractional metric magnitude: input "7.5g" produces
"1 tbsp (7g)", which does not contain the metric numeral "7.5" — the metric
value is altered, refuting the verbatim-preservation claim. -/
theorem serving_conversion_truncates :
    convert_metric_to_us_serving "7.5g" = "1 tbsp (7g)" ∧
    pyIn "7.5" "1 tbsp (7g)" = false := by
  exact ⟨by decide, by decide⟩

/-! ### C5 — severity of a missing metric unit family (counterexample) -/

/-- C5 (counterexample): scenario D of the specification. A label missing
manufacturer identification and missing metric units on its net quantity
yields 1 critical issue (manufacturer) plus 1 major issue (metric units) —
not 2 critical issues — so the score is 70, not 60 (status is still the
needs-fixes variant). The missing metric family is graded `major` at
src/app.py line 137, not `critical`. -/
theorem scenario_d_severity :
    (validate_complete_label "🇨🇱 Chile" labelScenarioD).map
        (fun r => (r.issues.critical.length, r.issues.major.length,
          countReq r.issues.critical "Net Quantity - Metric Units",
          countReq r.issues.major "Net Quantity - Metric Units",
          r.compliance_score, r.status)) =
      Except.ok (1, 1, 0, 1, 70, "NEEDS FIXES - Close to compliance") := by
  decide

/-! ### C4 — aggregation of the undeclared-allergen issue (counterexample) -/

/-- C4 (counterexample): for ingredient text "milk, egg" with no allergen
statement, two categories are detected and undeclared (milk and eggs), yet
the validator records exactly ONE critical allergen issue naming both — not
one critical issue per category as the claim states. The code also performs
a plain substring test of the category name against the statement text; it
has no synonym handling. -/
theorem allergen_issue_aggregated :
    (validate_complete_label "🇨🇱 Chile" labelAllergenPair).map
        (fun r => (r.detected_allergens,
          countReq r.issues.critical "Allergen Declaration (21 CFR 101.22)",
          (r.issues.critical.filter fun i =>
            i.requirement = "Allergen Declaration (21 CFR 101.22)").map
              fun i => i.issue)) =
      Except.ok ([("milk", ["milk"]), ("eggs", ["egg"])], 1,
        ["Allergens detected but not declared: Milk, Eggs"]) := by
  decide

/-! ### C2 — score formula and status thresholds -/

/-- C2: whenever `validate_complete_label` returns a report, its
compliance score is `max(0, 100 − 20·critical − 10·major)`, and its terminal
status is the ready variant exactly when there are zero critical issues, the
needs-fixes variant exactly when there are one or two, and the
major-revision variant exactly when there are three or more. -/
theorem score_and_status_formula (g : String) (d : ExtractedLabel) :
    match validate_complete_label g d with
    | Except.error _ => True
    | Except.ok r =>
        r.compliance_score = max 0 (100 - (r.issues.critical.length : ℤ) * 20 -
          (r.issues.major.length : ℤ) * 10) ∧
        (r.status = "FDA COMPLIANT - READY FOR US MARKET" ↔ r.issues.critical.length = 0) ∧
        (r.status = "NEEDS FIXES - Close to compliance" ↔
          (1 ≤ r.issues.critical.length ∧ r.issues.critical.length ≤ 2)) ∧
        (r.status = "MAJOR REVISION REQUIRED" ↔ 3 ≤ r.issues.critical.length) := by
  have d12 : ("FDA COMPLIANT - READY FOR US MARKET" : String) ≠
      "NEEDS FIXES - Close to compliance" := by decide
  have d13 : ("FDA COMPLIANT - READY FOR US MARKET" : String) ≠
      "MAJOR REVISION REQUIRED" := by decide
  have d23 : ("NEEDS FIXES - Close to compliance" : String) ≠
      "MAJOR REVISION REQUIRED" := by decide
  simp only [validate_complete_label]
  cases checkNutrition g d.information_panel d.nutrition_facts with
  | error e => trivial
  | ok s3 =>
    set C := checkIdentity d.principal_display_panel ++ checkNetQty d.principal_display_panel ++
      s3 ++ (checkIngredients d.information_panel d.language_detection).1 ++
      checkManufacturer d.information_panel ++
      checkLocalization d.principal_display_panel d.language_detection with hC
    show (summarize C _).compliance_score = _ ∧ _
    set n := C.critical.length with hn
    have h2 : (summarize C (checkIngredients d.information_panel d.language_detection).2).issues.critical.length = n := rfl
    have h4 : (summarize C (checkIngredients d.information_panel d.language_detection).2).status =
        (if n = 0 then "FDA COMPLIANT - READY FOR US MARKET"
         else if n ≤ 2 then "NEEDS FIXES - Close to compliance"
         else "MAJOR REVISION REQUIRED") := rfl
    refine ⟨rfl, ?_, ?_, ?_⟩
    · rw [h4, h2]
      split_ifs with hz hle
      · simp [hz]
      · exact iff_of_false (Ne.symm d12) hz
      · exact iff_of_false (Ne.symm d13) hz
    · rw [h4, h2]
      split_ifs with hz hle
      · exact iff_of_false d12 (by omega)
      · exact iff_of_true rfl ⟨by omega, hle⟩
      · exact iff_of_false (Ne.symm d23) (by omega)
    · rw [h4, h2]
      split_ifs with hz hle
      · exact iff_of_false d13 (by omega)
      · exact iff_of_false d23 (by omega)
      · exact iff_of_true rfl (by omega)

/-! ### C10 — the declared calories never influence the terminal status -/

/-- C10: two extraction records identical except for the declared calories
value produce reports with the same terminal status (indeed
`validate_complete_label` never reads the calories field: the calorie
cross-check `validate_calorie_calculation` is a separate advisory routine
not invoked by the compliance validator). -/
theorem calories_never_affect_status (g : String) (pdp : PDP) (info : InfoPanel)
    (lang : LangDetection) (nf : NutritionFacts) (c1 c2 : Option String) :
    (validate_complete_label g
        ⟨pdp, info, lang, { nf with calories := c1 }⟩).map (fun r => r.status) =
      (validate_complete_label g
        ⟨pdp, info, lang, { nf with calories := c2 }⟩).map (fun r => r.status) := by
  cases nf
  rfl

/-! ### C3 — polyol (sweetener) correction -/

/-- C3 (counterexample): the claim as stated is false. At ingredients
"maltitol" with `added_sugars_g = "12"` — a polyol keyword present, the
extracted added-sugars amount strictly positive (12), no genuine
caloric-sugar keyword — but `sugar_alcohols_g` the truthy non-numeric
string "abc", the block's shared `except` clause (src/app.py lines
1650-1655) zeroes BOTH working values, so the correction branch is never
reached: no field is rewritten and no correction is recorded
(`PolyolAction.alreadyZero`). -/
theorem polyol_correction_unparseable_alcohols_no_rewrite :
    pyIn "maltitol"
      (polyolIngredientsCombined labelMaltitolBadAlcohols.information_panel) = true ∧
    pyFloatOpt (labelMaltitolBadAlcohols.nutrition_facts.added_sugars_g.getD "0") =
      some 12 ∧
    (0 : ℚ) < 12 ∧
    (real_sugar_keywords.any fun kw =>
      pyIn kw (polyolIngredientsCombined labelMaltitolBadAlcohols.information_panel)) = false ∧
    polyol_correction labelMaltitolBadAlcohols =
      (labelMaltitolBadAlcohols, PolyolAction.alreadyZero) := by
  exact ⟨by decide, by decide, by decide, by decide, by decide⟩

/-- C3 (amended): if the combined ingredient text contains a polyol keyword,
the block's working added-sugars value — the pair of raw field conversions,
in which an unparseable truthy string in EITHER field zeroes both values —
is a strictly positive `v`, and the text contains no genuine caloric-sugar
keyword, then the correction block zeroes `added_sugars_g`, moves the former
amount into `sugar_alcohols_g` (as Python's `str(float)` rendering of `v`),
and records the single applied correction (`PolyolAction.moved v`, the
branch whose success messages announce the rewrite); if a genuine-sugar
keyword is also present, no value is rewritten and the record is flagged for
manual review. -/
theorem polyol_correction_spec (label : ExtractedLabel) (v : ℚ)
    (hpoly : (polyol_keywords.filter fun kw =>
      pyIn kw (polyolIngredientsCombined label.information_panel)) ≠ [])
    (hv : (polyolVals label.nutrition_facts).1 = v)
    (hpos : 0 < v) :
    ((real_sugar_keywords.any fun kw =>
        pyIn kw (polyolIngredientsCombined label.information_panel)) = false →
      polyol_correction label =
        ({ label with
            nutrition_facts :=
              { label.nutrition_facts with
                  sugar_alcohols_g := some (pyStrOfFloat v),
                  added_sugars_g := some "0" } },
          PolyolAction.moved v)) ∧
    ((real_sugar_keywords.any fun kw =>
        pyIn kw (polyolIngredientsCombined label.information_panel)) = true →
      polyol_correction label = (label, PolyolAction.flaggedReview)) := by
  simp only [polyol_correction]
  rw [if_pos hpoly, hv, if_pos hpos]
  refine ⟨fun hs => ?_, fun hs => ?_⟩
  · simp [hs]
  · simp [hs]

/-- Witness for `polyol_correction_spec`: scenario C of the specification —
ingredients "maltitol", extracted added sugars "12" — is corrected to added
sugars "0" and sugar alcohols "12.0". -/
theorem polyol_correction_spec_witness :
    polyol_correction labelMaltitol =
      ({ labelMaltitol with
          nutrition_facts :=
            { labelMaltitol.nutrition_facts with
                sugar_alcohols_g := some (pyStrOfFloat 12),
                added_sugars_g := some "0" } },
        PolyolAction.moved 12) :=
  (polyol_correction_spec labelMaltitol 12 (by decide) (by decide) (by decide)).1 (by decide)

/-- Companion fact for C3: in scenario C the downstream validator records
exactly one sweetener-related "changes made" entry for the corrected data,
and the ambiguous polyol-plus-sugar record is left entirely unchanged. -/
theorem polyol_correction_scenario_c_changes :
    (validate_complete_label "🇨🇱 Chile" (polyol_correction labelMaltitol).1).map
        (fun r => r.changes_made) =
      Except.ok ["Identified 12.0g sugar alcohols (polyols) - these are NOT added sugars"] ∧
    (polyol_correction labelMaltitolSugar).1 = labelMaltitolSugar ∧
    (polyol_correction labelMaltitolSugar).2 = PolyolAction.flaggedReview := by
  exact ⟨by decide, by decide, by decide⟩

/-! ### C8 — amended metric-preservation invariant -/

/-- C8 (amended): for every input string the serving-size conversion output
contains the metric core token of the input: on the curated and parsed
routes, the decimal representation of the integer-truncated parsed magnitude
(the full metric numeral verbatim exactly when it has no fractional part and
no leading zeros); on the fallback route, the whole normalized input text.
The original claim — the metric numeral always verbatim — fails on the
parsed route (see `serving_conversion_truncates`). -/
theorem serving_conversion_preserves_core (s : String) :
    pyIn (servingCoreToken s) (convert_metric_to_us_serving s) = true := by
  simp only [convert_metric_to_us_serving, servingCoreToken]
  cases hf : servingConversions.find? (fun p => p.1 = pyLower (pyStrip s)) with
  | none =>
    simp only [hf]
    cases hp : parseAmountUnit (pyLower (pyStrip s)) with
    | none =>
      simp only [hp, servingTokenOf, servingFromParsed]
      exact pyIn_sandwich "1 serving (" _ ")"
    | some pu =>
      obtain ⟨amt, u⟩ := pu
      simp only [hp, servingTokenOf, servingFromParsed]
      cases u
      · simp only [servingFromParsed]
        split_ifs <;> exact pyIn_sandwich _ _ _
      · simp only [servingFromParsed]
        split_ifs <;> exact pyIn_sandwich _ _ _
  | some p =>
    simp only [hf]
    have hpred0 := List.find?_some hf
    have hpred : p.1 = pyLower (pyStrip s) := by simpa using hpred0
    have hmem : p ∈ servingConversions := List.mem_of_find?_eq_some hf
    rw [← hpred]
    fin_cases hmem <;> decide

/-! ### Per-check issue-count lemmas

Each check can only contribute issues under its own requirement headings;
these lemmas locate a given heading's issues inside the aggregated
report. -/

theorem Contrib.ite_critical (c : Prop) [Decidable c] (a b : Contrib) :
    (if c then a else b).critical = if c then a.critical else b.critical := by
  split_ifs <;> rfl

theorem Contrib.ite_major (c : Prop) [Decidable c] (a b : Contrib) :
    (if c then a else b).major = if c then a.major else b.major := by
  split_ifs <;> rfl

theorem Contrib.ite_passed (c : Prop) [Decidable c] (a b : Contrib) :
    (if c then a else b).passed = if c then a.passed else b.passed := by
  split_ifs <;> rfl

theorem countReq_ite (c : Prop) [Decidable c] (a b : List ComplianceIssueR) (r : String) :
    countReq (if c then a else b) r = if c then countReq a r else countReq b r := by
  split_ifs <;> rfl

theorem checkIdentity_critical_req (p : PDP) (r : String)
    (h : r ≠ "Statement of Identity (21 CFR 101.3)") :
    countReq (checkIdentity p).critical r = 0 := by
  unfold checkIdentity
  split <;> simp [countReq, Ne.symm h]

theorem checkIdentity_major (p : PDP) : (checkIdentity p).major = [] := by
  unfold checkIdentity
  split <;> rfl

theorem checkNetQty_critical_req (p : PDP) (r : String)
    (h1 : r ≠ "Net Quantity Declaration (21 CFR 101.105)")
    (h2 : r ≠ "Net Quantity - US Units Required") :
    countReq (checkNetQty p).critical r = 0 := by
  unfold checkNetQty
  by_cases hq : p.net_quantity_original.getD "" = ""
  · rw [if_pos hq]
    simp [countReq, Ne.symm h1]
  · rw [if_neg hq]
    simp only [Contrib.append_critical, countReq_append]
    split_ifs <;> simp [countReq, Ne.symm h2]

theorem checkNetQty_us_count (p : PDP) (h : p.net_quantity_original.getD "" ≠ "") :
    countReq (checkNetQty p).critical "Net Quantity - US Units Required" =
      (if netQtyHasUS p then 0 else 1) := by
  unfold checkNetQty
  rw [if_neg h]
  simp only [Contrib.append_critical, countReq_append]
  split_ifs <;> simp_all [countReq]

theorem checkNetQty_metric_count (p : PDP) (h : p.net_quantity_original.getD "" ≠ "") :
    countReq (checkNetQty p).major "Net Quantity - Metric Units" =
      (if netQtyHasMetric p then 0 else 1) := by
  unfold checkNetQty
  rw [if_neg h]
  simp only [Contrib.append_major, countReq_append]
  split_ifs <;> simp_all [countReq]

theorem checkNetQty_major_req (p : PDP) (r : String)
    (h : r ≠ "Net Quantity - Metric Units") :
    countReq (checkNetQty p).major r = 0 := by
  unfold checkNetQty
  by_cases hq : p.net_quantity_original.getD "" = ""
  · rw [if_pos hq]
    rfl
  · rw [if_neg hq]
    simp only [Contrib.append_major, countReq_append]
    split_ifs <;> simp [countReq, Ne.symm h]

theorem checkManufacturer_critical_req (i : InfoPanel) (r : String)
    (h : r ≠ "Manufacturer Information (21 CFR 101.5)") :
    countReq (checkManufacturer i).critical r = 0 := by
  unfold checkManufacturer
  split
  · simp [countReq, Ne.symm h]
  · simp only [Contrib.ite_critical, Contrib.append_critical]
    split_ifs <;> simp [countReq]

theorem checkManufacturer_major_req (i : InfoPanel) (r : String)
    (h : r ≠ "Country of Origin Declaration") :
    countReq (checkManufacturer i).major r = 0 := by
  unfold checkManufacturer
  split
  · rfl
  · simp only [Contrib.ite_major, Contrib.append_major]
    split_ifs <;> simp [countReq, Ne.symm h]

theorem checkLocalization_critical_req (p : PDP) (l : LangDetection) (r : String)
    (h : r ≠ "English Language (21 CFR 101.15)") :
    countReq (checkLocalization p l).critical r = 0 := by
  unfold checkLocalization
  simp only [Contrib.append_critical, countReq_append]
  split_ifs <;> simp [countReq, Ne.symm h]

theorem checkLocalization_major (p : PDP) (l : LangDetection) :
    (checkLocalization p l).major = [] := by
  unfold checkLocalization
  simp only [Contrib.append_major]
  split_ifs <;> rfl

theorem checkNutrition_critical_req (g : String) (i : InfoPanel) (n : NutritionFacts)
    (s3 : Contrib) (h : checkNutrition g i n = Except.ok s3) (r : String)
    (hr : r ≠ "Nutrition Facts Panel (21 CFR 101.9)") :
    countReq s3.critical r = 0 := by
  simp only [checkNutrition] at h
  split at h
  · simp only [Except.ok.injEq] at h
    subst h
    simp [countReq, Ne.symm hr]
  · split at h
    · simp at h
    · rename_i saVal hsa
      split at h
      · split at h
        · simp at h
        · rename_i asVal hads
          simp only [Except.ok.injEq] at h
          subst h
          cases saVal <;> cases asVal <;>
            simp [Contrib.append_critical, Contrib.ite_critical, countReq_append,
              countReq_ite, countReq]
      · simp only [Except.ok.injEq] at h
        subst h
        cases saVal <;>
          simp [Contrib.append_critical, Contrib.ite_critical, countReq_append,
            countReq_ite, countReq]

theorem checkNutrition_major_req (g : String) (i : InfoPanel) (n : NutritionFacts)
    (s3 : Contrib) (h : checkNutrition g i n = Except.ok s3) (r : String)
    (hr1 : r ≠ "Nutrition Facts Format")
    (hr2 : r ≠ "Sugar Alcohols Declaration")
    (hr3 : r ≠ "Added Sugars vs Sugar Alcohols") :
    countReq s3.major r = 0 := by
  simp only [checkNutrition] at h
  split at h
  · simp only [Except.ok.injEq] at h
    subst h
    simp [countReq]
  · split at h
    · simp at h
    · rename_i saVal hsa
      split at h
      · split at h
        · simp at h
        · rename_i asVal hads
          simp only [Except.ok.injEq] at h
          subst h
          cases saVal <;> cases asVal <;>
            simp [Contrib.append_major, Contrib.ite_major, countReq_append,
              countReq_ite, countReq, Ne.symm hr1, Ne.symm hr2, Ne.symm hr3]
      · simp only [Except.ok.injEq] at h
        subst h
        cases saVal <;>
          simp [Contrib.append_major, Contrib.ite_major, countReq_append,
            countReq_ite, countReq, Ne.symm hr1, Ne.symm hr2, Ne.symm hr3]

theorem checkIngredients_critical_req (i : InfoPanel) (l : LangDetection) (r : String)
    (h1 : r ≠ "Ingredient List (21 CFR 101.4)")
    (h2 : r ≠ "Allergen Declaration (21 CFR 101.22)") :
    countReq (checkIngredients i l).1.critical r = 0 := by
  simp only [checkIngredients]
  by_cases hq : i.ingredient_list_original.getD "" = ""
  · rw [if_pos hq]
    simp [countReq, Ne.symm h1]
  · rw [if_neg hq]
    simp only [Contrib.append_critical, Contrib.ite_critical, countReq_append, countReq_ite]
    split_ifs <;> simp [countReq, Ne.symm h2]

theorem checkIngredients_major (i : InfoPanel) (l : LangDetection) :
    (checkIngredients i l).1.major = [] := by
  simp only [checkIngredients]
  by_cases hq : i.ingredient_list_original.getD "" = ""
  · rw [if_pos hq]
  · rw [if_neg hq]
    simp only [Contrib.append_major, Contrib.ite_major]
    split_ifs <;> rfl

theorem checkIngredients_allergen_count (i : InfoPanel) (l : LangDetection)
    (hing : i.ingredient_list_original.getD "" ≠ "")
    (hdet : detect_allergens (pyOrS (i.ingredient_list_english.getD "")
      (i.ingredient_list_original.getD "")) ≠ []) :
    countReq (checkIngredients i l).1.critical "Allergen Declaration (21 CFR 101.22)" =
      (if missingAllergens
          (detect_allergens (pyOrS (i.ingredient_list_english.getD "")
            (i.ingredient_list_original.getD "")))
          (pyLower (pyOrS (i.allergen_statement_english.getD "")
            (pyOrS (i.allergen_statement_original.getD "") ""))) = []
        then 0 else 1) ∧
    (missingAllergens
        (detect_allergens (pyOrS (i.ingredient_list_english.getD "")
          (i.ingredient_list_original.getD "")))
        (pyLower (pyOrS (i.allergen_statement_english.getD "")
          (pyOrS (i.allergen_statement_original.getD "") ""))) = [] →
      "✅ Allergens properly declared" ∈ (checkIngredients i l).1.passed) := by
  simp only [checkIngredients]
  rw [if_neg hing]
  constructor
  · simp only [Contrib.append_critical, Contrib.ite_critical, countReq_append, countReq_ite]
    rw [if_pos hdet]
    by_cases hm : missingAllergens
        (detect_allergens (pyOrS (i.ingredient_list_english.getD "")
          (i.ingredient_list_original.getD "")))
        (pyLower (pyOrS (i.allergen_statement_english.getD "")
          (pyOrS (i.allergen_statement_original.getD "") ""))) = [] <;>
      simp [hm, countReq]
  · intro hm
    simp only [Contrib.append_passed, Contrib.ite_passed]
    rw [if_pos hdet]
    split_ifs <;> simp_all

/-! ### C4 — amended aggregation of the undeclared-allergen check -/

/-- C4 (amended): whenever the ingredient list is present and allergen
detection is nonempty, the validator records EXACTLY ONE critical issue
under the allergen-declaration requirement when at least one detected
category's name (underscores replaced by spaces) does not occur as a
substring of the allergen-statement text — the single issue names every
missing category — and records none (and a passed entry) when every name
occurs. There is no synonym handling and no per-category issue. -/
theorem allergen_declaration_aggregation (g : String) (d : ExtractedLabel)
    (hing : d.information_panel.ingredient_list_original.getD "" ≠ "")
    (hdet : detect_allergens (pyOrS (d.information_panel.ingredient_list_english.getD "")
      (d.information_panel.ingredient_list_original.getD "")) ≠ []) :
    match validate_complete_label g d with
    | Except.error _ => True
    | Except.ok r =>
        countReq r.issues.critical "Allergen Declaration (21 CFR 101.22)" =
          (if missingAllergens
              (detect_allergens (pyOrS (d.information_panel.ingredient_list_english.getD "")
                (d.information_panel.ingredient_list_original.getD "")))
              (pyLower (pyOrS (d.information_panel.allergen_statement_english.getD "")
                (pyOrS (d.information_panel.allergen_statement_original.getD "") ""))) = []
            then 0 else 1) ∧
        (missingAllergens
            (detect_allergens (pyOrS (d.information_panel.ingredient_list_english.getD "")
              (d.information_panel.ingredient_list_original.getD "")))
            (pyLower (pyOrS (d.information_panel.allergen_statement_english.getD "")
              (pyOrS (d.information_panel.allergen_statement_original.getD "") ""))) = [] →
          "✅ Allergens properly declared" ∈ r.issues.passed) := by
  simp only [validate_complete_label]
  cases hcn : checkNutrition g d.information_panel d.nutrition_facts with
  | error e => trivial
  | ok s3 =>
    obtain ⟨hcount, hpass⟩ :=
      checkIngredients_allergen_count d.information_panel d.language_detection hing hdet
    refine ⟨?_, fun hm => ?_⟩
    · show countReq (summarize _ _).issues.critical _ = _
      simp only [summarize]
      simp only [Contrib.append_critical, countReq_append]
      rw [checkIdentity_critical_req _ _ (by decide),
        checkNetQty_critical_req _ _ (by decide) (by decide),
        checkNutrition_critical_req g _ _ s3 hcn _ (by decide),
        checkManufacturer_critical_req _ _ (by decide),
        checkLocalization_critical_req _ _ _ (by decide), hcount]
      simp
    · show _ ∈ (summarize _ _).issues.passed
      have hmem := hpass hm
      simp only [summarize]
      simp only [Contrib.append_passed, List.mem_append]
      tauto

/-- Witness for `allergen_declaration_aggregation` at the milk-and-egg
record with no allergen statement. -/
theorem allergen_declaration_aggregation_witness :
    match validate_complete_label "🇨🇱 Chile" labelAllergenPair with
    | Except.error _ => True
    | Except.ok r =>
        countReq r.issues.critical "Allergen Declaration (21 CFR 101.22)" =
          (if missingAllergens
              (detect_allergens (pyOrS
                (labelAllergenPair.information_panel.ingredient_list_english.getD "")
                (labelAllergenPair.information_panel.ingredient_list_original.getD "")))
              (pyLower (pyOrS
                (labelAllergenPair.information_panel.allergen_statement_english.getD "")
                (pyOrS (labelAllergenPair.information_panel.allergen_statement_original.getD "")
                  ""))) = []
            then 0 else 1) ∧
        (missingAllergens
            (detect_allergens (pyOrS
              (labelAllergenPair.information_panel.ingredient_list_english.getD "")
              (labelAllergenPair.information_panel.ingredient_list_original.getD "")))
            (pyLower (pyOrS
              (labelAllergenPair.information_panel.allergen_statement_english.getD "")
              (pyOrS (labelAllergenPair.information_panel.allergen_statement_original.getD "")
                ""))) = [] →
          "✅ Allergens properly declared" ∈ r.issues.passed) :=
  allergen_declaration_aggregation "🇨🇱 Chile" labelAllergenPair (by decide) (by decide)

/-! ### C5 — amended unit-family severities of the net-quantity check -/

/-- C5 (amended): for a present net-quantity declaration, a missing US
customary unit family yields exactly one CRITICAL issue and a missing metric
family yields exactly one MAJOR issue (the original claim's critical grading
of the metric family, and its 2-critical/score-60 arithmetic for scenario D,
fail — see `scenario_d_severity`). -/
theorem net_quantity_unit_family_severity (g : String) (d : ExtractedLabel)
    (hnq : d.principal_display_panel.net_quantity_original.getD "" ≠ "") :
    match validate_complete_label g d with
    | Except.error _ => True
    | Except.ok r =>
        countReq r.issues.critical "Net Quantity - US Units Required" =
          (if netQtyHasUS d.principal_display_panel then 0 else 1) ∧
        countReq r.issues.major "Net Quantity - Metric Units" =
          (if netQtyHasMetric d.principal_display_panel then 0 else 1) := by
  simp only [validate_complete_label]
  cases hcn : checkNutrition g d.information_panel d.nutrition_facts with
  | error e => trivial
  | ok s3 =>
    refine ⟨?_, ?_⟩
    · show countReq (summarize _ _).issues.critical _ = _
      simp only [summarize]
      simp only [Contrib.append_critical, countReq_append]
      rw [checkIdentity_critical_req _ _ (by decide),
        checkNutrition_critical_req g _ _ s3 hcn _ (by decide),
        checkIngredients_critical_req _ _ _ (by decide) (by decide),
        checkManufacturer_critical_req _ _ (by decide),
        checkLocalization_critical_req _ _ _ (by decide),
        checkNetQty_us_count _ hnq]
      simp
    · show countReq (summarize _ _).issues.major _ = _
      simp only [summarize]
      simp only [Contrib.append_major, countReq_append]
      rw [checkIdentity_major, checkIngredients_major, checkLocalization_major,
        checkNutrition_major_req g _ _ s3 hcn _ (by decide) (by decide) (by decide),
        checkManufacturer_major_req _ _ (by decide),
        checkNetQty_metric_count _ hnq]
      simp [countReq]

/-- Witness for `net_quantity_unit_family_severity` at the scenario-D
record ("17.6 oz", no metric component). -/
theorem net_quantity_unit_family_severity_witness :
    match validate_complete_label "🇨🇱 Chile" labelScenarioD with
    | Except.error _ => True
    | Except.ok r =>
        countReq r.issues.critical "Net Quantity - US Units Required" =
          (if netQtyHasUS labelScenarioD.principal_display_panel then 0 else 1) ∧
        countReq r.issues.major "Net Quantity - Metric Units" =
          (if netQtyHasMetric labelScenarioD.principal_display_panel then 0 else 1) :=
  net_quantity_unit_family_severity "🇨🇱 Chile" labelScenarioD (by decide)
